import Mathlib

/-!
Verification of the Claude export parser (`claude_complete_parser.py`)
against its natural-language specification.  The Python source is shallowly
embedded: every function below is a direct translation of the corresponding
method of `ClaudeCompleteParser`; dictionary fields that may be absent are
`Option`s, `dict.get(k, d)` becomes `Option.getD`, and Python string
operations (`strip`, `rstrip`, regular-expression substitutions) are modelled
by explicit recursive functions on `List Char`.
-/

namespace ClaudeParser

/-! ### Python character classes and string primitives (ASCII core) -/

/-- Python `\s` (ASCII core): space, tab, newline, carriage return,
vertical tab, form feed. -/
def isPySpace (c : Char) : Bool :=
  c = ' ' || c = '\t' || c = '\n' || c = '\r' || c = '\x0b' || c = '\x0c'

/-- Python `\w` (ASCII core): alphanumeric or underscore. -/
def isWordChar (c : Char) : Bool :=
  c.isAlphanum || c = '_'

/-- Strip a trailing run of characters satisfying `p` (Python `rstrip`). -/
def rstripP (p : Char → Bool) : List Char → List Char
  | [] => []
  | a :: rest =>
    let r := rstripP p rest
    if r.isEmpty && p a then [] else a :: r

/-- Strip leading and trailing runs of characters satisfying `p`
(Python `strip`). -/
def stripP (p : Char → Bool) (l : List Char) : List Char :=
  rstripP p (l.dropWhile p)

/-- Python `str.strip()` (whitespace at both ends). -/
def pyStrip (s : String) : String :=
  String.mk (stripP isPySpace s.data)

/-- Replace every maximal run of characters satisfying `p` by the single
character `r` (the effect of `re.sub(cls+, r, ·)` for a character class).
The flag `prev` records whether the previous character was in the class. -/
def collapseAux (p : Char → Bool) (r : Char) (prev : Bool) : List Char → List Char
  | [] => []
  | a :: rest =>
    if p a then
      if prev then collapseAux p r true rest
      else r :: collapseAux p r true rest
    else a :: collapseAux p r false rest

/-- `re.sub(cls+, r, ·)` for a one-character-class regex. -/
def collapseRuns (p : Char → Bool) (r : Char) (l : List Char) : List Char :=
  collapseAux p r false l

/-- Boolean substring test (`needle in hay` on Python strings). -/
def strContains (hay needle : String) : Bool :=
  decide (needle.data <:+: hay.data)

/-- Python `str.lower()` (ASCII core). -/
def pyLower (s : String) : String :=
  String.mk (s.data.map Char.toLower)

/-- Python `str.endswith(suffix)`. -/
def pyEndsWith (s suffix : String) : Bool :=
  decide (suffix.data <:+ s.data)

/-- Python `str.title()` (ASCII core): the first letter of every run of
letters is upper-cased, subsequent letters are lower-cased. -/
def pyTitleAux (prevAlpha : Bool) : List Char → List Char
  | [] => []
  | c :: rest =>
    if c.isAlpha then
      (if prevAlpha then c.toLower else c.toUpper) :: pyTitleAux true rest
    else c :: pyTitleAux false rest

def pyTitle (s : String) : String :=
  String.mk (pyTitleAux false s.data)

/-! ### Data model

Python dictionaries from the export JSON become structures; a field read
with `dict.get(key)` / `dict.get(key, default)` is an `Option`.  A message
`content` value may be a string, a list of typed blocks, absent (the code
defaults it to `[]`), or any other JSON value (the code then yields `""`). -/

structure ContentBlock where
  type : Option String
  text : Option String
  deriving DecidableEq, Repr

inductive PyContent where
  | absent
  | str (s : String)
  | blocks (bs : List ContentBlock)
  | other
  deriving DecidableEq, Repr

structure Message where
  sender : Option String
  created_at : Option String
  text : Option String
  content : PyContent
  deriving DecidableEq, Repr

structure AccountInfo where
  uuid : Option String
  deriving DecidableEq, Repr

/-- A conversation record.  `chat_messages` is read in the source only via
`conversation.get('chat_messages', [])`, so an absent key and an empty list
are indistinguishable and we model both as `[]`. -/
structure Conversation where
  name : Option String
  uuid : Option String
  summary : Option String
  created_at : Option String
  updated_at : Option String
  account : Option AccountInfo
  chat_messages : List Message
  deriving DecidableEq, Repr

structure ProjectDoc where
  filename : Option String
  uuid : Option String
  content : Option String
  created_at : Option String
  deriving DecidableEq, Repr

structure Creator where
  uuid : Option String
  full_name : Option String
  deriving DecidableEq, Repr

structure Project where
  name : Option String
  description : Option String
  prompt_template : Option String
  uuid : Option String
  created_at : Option String
  updated_at : Option String
  is_private : Bool
  is_starter_project : Bool
  creator : Option Creator
  docs : List ProjectDoc
  deriving DecidableEq, Repr

structure User where
  full_name : Option String
  email_address : Option String
  uuid : Option String
  verified_phone_number : Option String
  deriving DecidableEq, Repr

/-- The parser's three loaded collections (`self.conversations`,
`self.projects`, `self.users`). -/
structure State where
  conversations : List Conversation
  projects : List Project
  users : List User
  deriving DecidableEq, Repr

/-! ### `format_date` : `datetime.fromisoformat` + `strftime`

We model the documented core grammar of `datetime.fromisoformat` (the
inverse of `datetime.isoformat`, the grammar accepted before Python 3.11):
`YYYY-MM-DD[*HH:MM[:SS[.fff[fff]]][+HH:MM|-HH:MM]]` where `*` is any single
separator character, together with the range validation performed by the
`datetime`/`timezone` constructors.  The `strftime` format used by the
source is `"%B %d, %Y at %I:%M %p %Z"`; `%Z` renders the `tzname` of the
parsed offset, and is empty for a naive timestamp. -/

structure PyDateTime where
  year : Nat
  month : Nat
  day : Nat
  hour : Nat
  minute : Nat
  second : Nat
  microsecond : Nat
  /-- UTC offset in minutes, `none` for a naive datetime. -/
  offset : Option Int
  deriving DecidableEq, Repr

def digitVal (c : Char) : Option Nat :=
  if c.isDigit then some (c.toNat - 48) else none

def parse2 : List Char → Option (Nat × List Char)
  | a :: b :: rest => do
    let x ← digitVal a
    let y ← digitVal b
    pure (10 * x + y, rest)
  | _ => none

def parse4 : List Char → Option (Nat × List Char)
  | a :: b :: c :: d :: rest => do
    let w ← digitVal a
    let x ← digitVal b
    let y ← digitVal c
    let z ← digitVal d
    pure (1000 * w + 100 * x + 10 * y + z, rest)
  | _ => none

def parse3 : List Char → Option (Nat × List Char)
  | a :: b :: c :: rest => do
    let x ← digitVal a
    let y ← digitVal b
    let z ← digitVal c
    pure (100 * x + 10 * y + z, rest)
  | _ => none

def parse6 : List Char → Option (Nat × List Char)
  | a :: b :: c :: d :: e :: f :: rest => do
    let (x, _) ← parse3 [a, b, c]
    let (y, _) ← parse3 [d, e, f]
    pure (1000 * x + y, rest)
  | _ => none

def expectChar (c : Char) : List Char → Option (List Char)
  | a :: rest => if a = c then some rest else none
  | [] => none

/-- `YYYY-MM-DD`. -/
def parseDatePart (l : List Char) : Option (Nat × Nat × Nat × List Char) := do
  let (y, l1) ← parse4 l
  let l2 ← expectChar '-' l1
  let (m, l3) ← parse2 l2
  let l4 ← expectChar '-' l3
  let (d, l5) ← parse2 l4
  pure (y, m, d, l5)

/-- `HH:MM[:SS[.fff[fff]]]`; the fraction must be exactly 3 or 6 digits. -/
def parseTimePart (l : List Char) : Option (Nat × Nat × Nat × Nat × List Char) := do
  let (h, l1) ← parse2 l
  let l2 ← expectChar ':' l1
  let (mi, l3) ← parse2 l2
  match l3 with
  | ':' :: l4 => do
    let (s, l5) ← parse2 l4
    match l5 with
    | '.' :: l6 =>
      match parse6 l6 with
      | some (f, l7) => pure (h, mi, s, f, l7)
      | none => do
        let (f, l7) ← parse3 l6
        pure (h, mi, s, f * 1000, l7)
    | _ => pure (h, mi, s, 0, l5)
  | _ => pure (h, mi, 0, 0, l3)

/-- Optional `+HH:MM` / `-HH:MM` offset; `timezone` accepts any offset
strictly below 24 hours in absolute value. -/
def parseTzPart : List Char → Option (Option Int × List Char)
  | [] => some (none, [])
  | c :: rest =>
    if c = '+' || c = '-' then do
      let (hh, r1) ← parse2 rest
      let r2 ← expectChar ':' r1
      let (mm, r3) ← parse2 r2
      let tot : Nat := hh * 60 + mm
      if tot < 1440 then
        some (some (if c = '-' then -(tot : Int) else (tot : Int)), r3)
      else none
    else none

/-- Number of days in a month, with Gregorian leap years
(the `datetime` constructor's day validation). -/
def daysInMonth (y m : Nat) : Nat :=
  if m = 2 then
    if y % 4 = 0 && (y % 100 != 0 || y % 400 = 0) then 29 else 28
  else if m = 4 || m = 6 || m = 9 || m = 11 then 30
  else 31

/-- The range validation performed by the `datetime` constructor
(`MINYEAR = 1`, `MAXYEAR = 9999`). -/
def mkValidDateTime (y m d h mi s f : Nat) (off : Option Int) : Option PyDateTime :=
  if 1 ≤ y ∧ y ≤ 9999 ∧ 1 ≤ m ∧ m ≤ 12 ∧ 1 ≤ d ∧ d ≤ daysInMonth y m ∧
      h ≤ 23 ∧ mi ≤ 59 ∧ s ≤ 59 then
    some ⟨y, m, d, h, mi, s, f, off⟩
  else none

/-- `datetime.fromisoformat` (documented core grammar). -/
def pyFromIsoformat (s : String) : Option PyDateTime :=
  match parseDatePart s.data with
  | none => none
  | some (y, m, d, rest) =>
    match rest with
    | [] => mkValidDateTime y m d 0 0 0 0 none
    | _sep :: timeRest =>
      match parseTimePart timeRest with
      | none => none
      | some (h, mi, sec, f, r) =>
        match parseTzPart r with
        | none => none
        | some (off, r2) =>
          if r2 = [] then mkValidDateTime y m d h mi sec f off else none

def monthName : Nat → String
  | 1 => "January"
  | 2 => "February"
  | 3 => "March"
  | 4 => "April"
  | 5 => "May"
  | 6 => "June"
  | 7 => "July"
  | 8 => "August"
  | 9 => "September"
  | 10 => "October"
  | 11 => "November"
  | 12 => "December"
  | _ => ""

def pad2 (n : Nat) : String :=
  if n < 10 then "0" ++ toString n else toString n

def hour12 (h : Nat) : Nat :=
  if h % 12 = 0 then 12 else h % 12

def meridiem (h : Nat) : String :=
  if h < 12 then "AM" else "PM"

/-- `tzname` of the parsed offset as rendered by `%Z`: empty for a naive
datetime, `UTC` for a zero offset, `UTC±HH:MM` otherwise. -/
def tznameStr : Option Int → String
  | none => ""
  | some off =>
    if off = 0 then "UTC"
    else
      let a := off.natAbs
      "UTC" ++ (if off < 0 then "-" else "+") ++ pad2 (a / 60) ++ ":" ++ pad2 (a % 60)

/-- `dt.strftime("%B %d, %Y at %I:%M %p %Z")`. -/
def pyStrftimeVerbose (dt : PyDateTime) : String :=
  monthName dt.month ++ " " ++ pad2 dt.day ++ ", " ++ toString dt.year ++
    " at " ++ pad2 (hour12 dt.hour) ++ ":" ++ pad2 dt.minute ++ " " ++
    meridiem dt.hour ++ " " ++ tznameStr dt.offset

/-- The `'Z' → '+00:00'` rewrite applied before parsing. -/
def rewriteZ (date_string : String) : String :=
  if pyEndsWith date_string "Z" then String.mk date_string.data.dropLast ++ "+00:00"
  else date_string

/-- `ClaudeCompleteParser.format_date`.  Note that the rewrite of a trailing
`Z` happens before `fromisoformat` inside the `try` block, so the `except`
branch returns the rewritten string. -/
def format_date (date_string : String) : String :=
  if date_string = "" then "Unknown date"
  else
    match pyFromIsoformat (rewriteZ date_string) with
    | some dt => pyStrftimeVerbose dt
    | none => rewriteZ date_string

/-! ### `safe_filename` -/

/-- The reserved path characters of the class `[<>:"/\\|?*]`. -/
def reservedChar (c : Char) : Bool :=
  c = '<' || c = '>' || c = ':' || c = '"' || c = '/' || c = '\\' ||
    c = '|' || c = '?' || c = '*'

/-- A character of the class `[\w\s\-_.]` (everything `safe_filename`'s
second substitution keeps). -/
def keepChar (c : Char) : Bool :=
  isWordChar c || isPySpace c || c = '-' || c = '_' || c = '.'

/-- The first four steps of `safe_filename`: the two character
substitutions, whitespace-run collapsing to `_`, and stripping of `_` at
both ends. -/
def sanitizeBase (text : String) : List Char :=
  stripP (fun c => c = '_')
    (collapseRuns isPySpace '_'
      ((text.data.map (fun c => if reservedChar c then '_' else c)).map
        (fun c => if keepChar c then c else '_')))

/-- The sanitising pipeline of `safe_filename` before the `"untitled"`
fallback: `sanitizeBase` followed by truncation to `max_length` with a
trailing-`_` strip. -/
def sanitizePipeline (text : String) (max_length : Nat) : List Char :=
  if (sanitizeBase text).length > max_length then
    rstripP (fun c => c = '_') ((sanitizeBase text).take max_length)
  else sanitizeBase text

/-- `ClaudeCompleteParser.safe_filename` (`return filename or "untitled"`). -/
def safe_filename (text : String) (max_length : Nat := 100) : String :=
  if (sanitizePipeline text max_length).isEmpty then "untitled"
  else String.mk (sanitizePipeline text max_length)

/-! ### Message text extraction -/

/-- The loop of `extract_message_text`: collect the `text` field of every
`text`-typed block, skipping blocks whose `text` is empty or missing. -/
def collectTextParts : List ContentBlock → List String
  | [] => []
  | item :: rest =>
    if item.type = some "text" then
      let text := item.text.getD ""
      if text ≠ "" then text :: collectTextParts rest else collectTextParts rest
    else collectTextParts rest

/-- `ClaudeCompleteParser.extract_message_text`. -/
def extract_message_text (content_array : List ContentBlock) : String :=
  String.intercalate "\n" (collectTextParts content_array)

/-- `ClaudeCompleteParser.format_message_content`. -/
def format_message_content (message : Message) : String :=
  if message.text.getD "" ≠ "" then pyStrip (message.text.getD "")
  else
    match message.content with
    | .str s => pyStrip s
    | .blocks bs => pyStrip (extract_message_text bs)
    | .absent => pyStrip (extract_message_text [])
    | .other => ""

/-! ### Summary cleaning (`re.sub` models)

`re.sub(r'```[\s\S]*?```', '[code block]', ·)` replaces, scanning left to
right, each span from a triple backtick to the next following triple
backtick; if no closing triple exists the scan advances one character.
`re.sub(r'`[^`]*`', '[code]', ·)` likewise replaces each span from a
backtick to the nearest following backtick. -/

def backtick : Char := '\x60'

/-- Split at the first occurrence of three consecutive backticks
(the triple itself consumed). -/
def findTripleSplit : List Char → Option (List Char × List Char)
  | [] => none
  | c :: rest =>
    if c = backtick ∧ rest.take 2 = [backtick, backtick] then some ([], rest.drop 2)
    else (findTripleSplit rest).map (fun p => (c :: p.1, p.2))

theorem findTripleSplit_length {l b a} (h : findTripleSplit l = some (b, a)) :
    a.length < l.length := by
  induction l generalizing b a with
  | nil => simp [findTripleSplit] at h
  | cons c rest ih =>
    rw [findTripleSplit] at h
    split at h
    · simp only [Option.some_inj, Prod.mk.injEq] at h
      have : (rest.drop 2).length ≤ rest.length := by
        simp
      simp only [← h.2, List.length_cons]
      omega
    · rcases ho : findTripleSplit rest with _ | ⟨b', a'⟩
      · rw [ho] at h; simp at h
      · rw [ho] at h
        simp only [Option.map_some', Option.some_inj, Prod.mk.injEq] at h
        have := ih ho
        simp only [← h.2, List.length_cons]
        omega

/-- Split at the first occurrence of the character `t`
(the character itself consumed). -/
def findCharSplit (t : Char) : List Char → Option (List Char × List Char)
  | [] => none
  | c :: rest =>
    if c = t then some ([], rest)
    else (findCharSplit t rest).map (fun p => (c :: p.1, p.2))

theorem findCharSplit_length {t l b a} (h : findCharSplit t l = some (b, a)) :
    a.length < l.length := by
  induction l generalizing b a with
  | nil => simp [findCharSplit] at h
  | cons c rest ih =>
    rw [findCharSplit] at h
    split at h
    · simp only [Option.some_inj, Prod.mk.injEq] at h
      simp only [← h.2, List.length_cons]
      omega
    · rcases ho : findCharSplit t rest with _ | ⟨b', a'⟩
      · rw [ho] at h; simp at h
      · rw [ho] at h
        simp only [Option.map_some', Option.some_inj, Prod.mk.injEq] at h
        have := ih ho
        simp only [← h.2, List.length_cons]
        omega

/-- `re.sub(r'```[\s\S]*?```', '[code block]', ·)`, with explicit fuel so
that the kernel can evaluate it.  Every step consumes at least one input
character (`findTripleSplit_length`), so fuel equal to the input length
(as provided by `subFence`) never runs out. -/
def subFenceFuel : Nat → List Char → List Char
  | 0, l => l
  | fuel + 1, l =>
    match l with
    | [] => []
    | c :: rest =>
      if c = backtick ∧ rest.take 2 = [backtick, backtick] then
        match findTripleSplit (rest.drop 2) with
        | some (_, after) => "[code block]".data ++ subFenceFuel fuel after
        | none => c :: subFenceFuel fuel rest
      else c :: subFenceFuel fuel rest

def subFence (l : List Char) : List Char := subFenceFuel l.length l

/-- `re.sub(r'`[^`]*`', '[code]', ·)`, with explicit fuel as in
`subFenceFuel` (justified by `findCharSplit_length`). -/
def subInlineFuel : Nat → List Char → List Char
  | 0, l => l
  | fuel + 1, l =>
    match l with
    | [] => []
    | c :: rest =>
      if c = backtick then
        match findCharSplit backtick rest with
        | some (_, after) => "[code]".data ++ subInlineFuel fuel after
        | none => c :: subInlineFuel fuel rest
      else c :: subInlineFuel fuel rest

def subInline (l : List Char) : List Char := subInlineFuel l.length l

/-- The message-cleaning pipeline shared by the summary and the display
name: code fences to `[code block]`, inline code to `[code]`, newline runs
to spaces, whitespace runs to single spaces, strip. -/
def cleanMessageText (s : String) : String :=
  pyStrip (String.mk (collapseRuns isPySpace ' '
    (collapseRuns (fun c => c = '\n') ' ' (subInline (subFence s.data)))))

/-- `clean[:n].rstrip() + "..."` when longer than `n`, else unchanged. -/
def truncateWithEllipsis (n : Nat) (clean : String) : String :=
  if clean.length > n then
    String.mk (rstripP isPySpace (clean.data.take n)) ++ "..."
  else clean

/-! ### Conversation summary, display name, content filter -/

/-- The first-human-message scan of `get_conversation_summary`: the loop
breaks at the first message whose `sender` is `human`, yielding its
formatted content (`first_message` stays `None` when no human message
exists). -/
def firstHumanContent : List Message → Option String
  | [] => none
  | m :: rest =>
    if m.sender = some "human" then some (format_message_content m)
    else firstHumanContent rest

/-- `ClaudeCompleteParser.get_conversation_summary`. -/
def get_conversation_summary (conversation : Conversation) : String :=
  let messages := conversation.chat_messages
  if messages.isEmpty then "No messages"
  else
    let message_count := messages.length
    match firstHumanContent messages with
    | some first_message =>
      if first_message ≠ "" then
        let summary := truncateWithEllipsis 80 (cleanMessageText first_message)
        toString message_count ++ " messages - " ++ summary
      else toString message_count ++ " messages"
    | none => toString message_count ++ " messages"

/-- The name-synthesis scan of `get_conversation_display_name`: the loop
breaks (setting the name) only at the first `human` message whose formatted
content is non-empty. -/
def firstHumanName : List Message → Option String
  | [] => none
  | m :: rest =>
    if m.sender = some "human" then
      let first_message := format_message_content m
      if first_message ≠ "" then
        some (truncateWithEllipsis 50 (cleanMessageText first_message))
      else firstHumanName rest
    else firstHumanName rest

/-- `ClaudeCompleteParser.get_conversation_display_name`.  The raw name is
stripped first, and the stripped value is what is returned when non-empty. -/
def get_conversation_display_name (conversation : Conversation) : String :=
  let name := pyStrip (conversation.name.getD "")
  if name ≠ "" then name
  else
    match firstHumanName conversation.chat_messages with
    | some n => n
    | none =>
      let conv_id := conversation.uuid.getD "unknown"
      let short_id :=
        if conv_id.length ≥ 8 then
          String.mk (conv_id.data.drop (conv_id.length - 8))
        else conv_id
      "Untitled Conversation " ++ short_id

/-- `ClaudeCompleteParser.has_meaningful_content`. -/
def has_meaningful_content (conversation : Conversation) : Bool :=
  let messages := conversation.chat_messages
  if messages.isEmpty then false
  else messages.any (fun msg =>
    let content := format_message_content msg
    content ≠ "" && pyStrip content ≠ "")

/-! ### Sorting

Python `sorted(..., key=k)` / `sorted(..., key=k, reverse=True)` is a stable
sort on string keys; we model it by stable insertion sort, with an explicit
code-point-lexicographic comparison (Python's `<` on strings). -/

def listLt : List Char → List Char → Bool
  | [], [] => false
  | [], _ :: _ => true
  | _ :: _, [] => false
  | a :: as, b :: bs =>
    if a < b then true else if b < a then false else listLt as bs

def strLt (a b : String) : Bool := listLt a.data b.data

def insertDescBy (key : α → String) (a : α) : List α → List α
  | [] => [a]
  | b :: rest =>
    if strLt (key b) (key a) then a :: b :: rest else b :: insertDescBy key a rest

/-- Stable sort, key descending (`sorted(..., key=k, reverse=True)`). -/
def sortByKeyDesc (key : α → String) (l : List α) : List α :=
  l.foldl (fun acc a => insertDescBy key a acc) []

def insertAscBy (key : α → String) (a : α) : List α → List α
  | [] => [a]
  | b :: rest =>
    if strLt (key a) (key b) then a :: b :: rest else b :: insertAscBy key a rest

/-- Stable sort, key ascending (`list.sort()`). -/
def sortByKeyAsc (key : α → String) (l : List α) : List α :=
  l.foldl (fun acc a => insertAscBy key a acc) []

/-! ### README renderer -/

/-- The README title plus the single `generated on` line (the only place
`datetime.now()` reaches any output). -/
def header_content (now : String) : String :=
  "# Claude Export - Complete Archive\n\nExport generated on: " ++ now ++ "\n\n"

def user_info_section (s : State) : String :=
  match s.users with
  | [] => ""
  | user :: _ =>
    "## User Information\n\n**Name:** " ++ user.full_name.getD "Unknown" ++
      "\n**Email:** " ++ user.email_address.getD "Unknown" ++
      "\n**User ID:** `" ++ user.uuid.getD "Unknown" ++ "`\n\n"

def totalMessages (convs : List Conversation) : Nat :=
  (convs.map (fun conv => conv.chat_messages.length)).sum

def overview_section (s : State) : String :=
  "## Overview\n\n- **Total Projects:** " ++ toString s.projects.length ++
    "\n- **Total Conversations:** " ++ toString s.conversations.length ++
    "\n- **Total Messages:** " ++ toString (totalMessages s.conversations) ++ "\n\n"

/-- The list comprehension plus `dates.sort()` of the date-range section:
raw ISO strings, lexicographically sorted. -/
def sortedConversationDates (convs : List Conversation) : List String :=
  sortByKeyAsc id ((convs.map (fun conv => conv.created_at.getD "")).filter
    (fun d => d ≠ ""))

def date_range_section (s : State) : String :=
  match sortedConversationDates s.conversations with
  | [] => ""
  | d :: rest =>
    "**Date Range:** " ++ format_date d ++ " to " ++
      format_date ((d :: rest).getLast (List.cons_ne_nil d rest)) ++ "\n\n"

def structure_section (dirName : String) : String :=
  "## Archive Structure\n\nThis archive is organized as follows:\n\n```\n" ++
    dirName ++
    "/\n├── README.md (this file)\n├── projects/\n│   ├── [project_name]/\n│   │   ├── project_info.md\n│   │   └── docs/\n│   │       └── [document_files]\n├── conversations/\n│   ├── project_conversations/\n│   │   └── [conversation_files]\n│   └── standalone_conversations/\n│       └── [conversation_files]\n└── metadata/\n    ├── projects_index.md\n    ├── conversations_index.md\n    └── user_info.md\n```\n\n"

def projectsSortedDesc (projects : List Project) : List Project :=
  sortByKeyDesc (fun p => p.created_at.getD "") projects

def readme_project_block (project : Project) : String :=
  let name := project.name.getD "Untitled Project"
  let description := project.description.getD "No description"
  "### [" ++ name ++ "](projects/" ++ safe_filename name ++ "/project_info.md)\n" ++
    (if description ≠ "" then "*" ++ description ++ "*" else "") ++
    "\n\n- **Created:** " ++ format_date (project.created_at.getD "") ++
    "\n- **Documents:** " ++ toString project.docs.length ++
    "\n- **Private:** " ++ (if project.is_private then "Yes" else "No") ++ "\n\n"

def projects_section (s : State) : String :=
  "## Projects\n" ++
    (if s.projects.isEmpty then "No projects found.\n"
     else String.join ((projectsSortedDesc s.projects).map readme_project_block))

/-- The 10 most recently updated conversations (string sort on
`updated_at`, descending). -/
def readmeRecentList (convs : List Conversation) : List Conversation :=
  (sortByKeyDesc (fun conv => conv.updated_at.getD "") convs).take 10

/-- The link text of a README recent-conversations entry: the raw `name`
field (defaulted only when the key is absent), not the display name. -/
def readme_link_text (conv : Conversation) : String :=
  conv.name.getD "Untitled Conversation"

/-- The link target filename of a README recent-conversations entry. -/
def readme_link_filename (conv : Conversation) : String :=
  safe_filename (readme_link_text conv) ++ ".md"

def recent_conversation_line (conv : Conversation) : String :=
  "- [" ++ readme_link_text conv ++ "](conversations/standalone_conversations/" ++
    readme_link_filename conv ++ ")\n  *" ++ get_conversation_summary conv ++
    "* - " ++ format_date (conv.updated_at.getD "") ++ "\n"

def recent_conversations_section (s : State) : String :=
  "## Recent Conversations\n" ++
    String.join ((readmeRecentList s.conversations).map recent_conversation_line) ++ "\n"

def navigation_section : String :=
  "## Navigation\n\n- [All Projects](metadata/projects_index.md)\n- [All Conversations](metadata/conversations_index.md)\n- [User Information](metadata/user_info.md)\n\n"

/-- Everything of the README after the header: no part of it depends on the
generation timestamp. -/
def readmeBody (dirName : String) (s : State) : String :=
  user_info_section s ++ overview_section s ++ date_range_section s ++
    structure_section dirName ++ projects_section s ++
    recent_conversations_section s ++ navigation_section

/-- `ClaudeCompleteParser.create_readme` (content of `README.md`). -/
def create_readme (now dirName : String) (s : State) : String :=
  header_content now ++ readmeBody dirName s

/-! ### Conversation file renderer -/

/-- The filename under `standalone_conversations/`, derived from the
display name. -/
def conversationFileName (conversation : Conversation) : String :=
  safe_filename (get_conversation_display_name conversation) ++ ".md"

def senderLabel (sender : String) : String :=
  if sender = "human" then "Human"
  else if sender = "assistant" then "Assistant"
  else pyTitle sender

def message_block (i n : Nat) (message : Message) : String :=
  let sender := message.sender.getD "unknown"
  let content := format_message_content message
  "### " ++ toString i ++ ". " ++ senderLabel sender ++ "\n*" ++
    format_date (message.created_at.getD "") ++ "*\n\n" ++
    (if content ≠ "" then content else "*[No content]*") ++ "\n\n" ++
    (if i < n then "---\n" else "")

def messages_section (messages : List Message) : String :=
  if messages.isEmpty then "*No messages in this conversation.*"
  else
    "## Messages (" ++ toString messages.length ++ ")\n" ++
      String.join (messages.enum.map
        (fun p => message_block (p.1 + 1) messages.length p.2))

/-- `ClaudeCompleteParser.create_conversation_file` (file content). -/
def conversation_file_content (conversation : Conversation) : String :=
  let name := get_conversation_display_name conversation
  let summary := conversation.summary.getD ""
  let summary_line := if summary ≠ "" then "**Summary:** " ++ summary ++ "\n\n" else ""
  let summary_section := summary_line ++
    "**Created:** " ++ format_date (conversation.created_at.getD "") ++ "\n" ++
    "**Last Updated:** " ++ format_date (conversation.updated_at.getD "") ++ "\n" ++
    "**Conversation ID:** `" ++ conversation.uuid.getD "Unknown" ++ "`"
  let account_section :=
    match conversation.account with
    | some account_info =>
      if account_info.uuid.getD "" ≠ "" then
        "\n**Account ID:** `" ++ account_info.uuid.getD "" ++ "`"
      else ""
    | none => ""
  "# " ++ name ++ "\n\n## Conversation Details\n\n" ++
    summary_section ++ account_section ++ "\n\n---\n\n" ++
    messages_section conversation.chat_messages

/-! ### Project renderers -/

def project_docs_section (docs : List ProjectDoc) : String :=
  if docs.isEmpty then "## Documents\n\nNo documents in this project.\n\n"
  else
    "## Documents\n" ++
      String.join (docs.map (fun doc =>
        let filename := doc.filename.getD "Untitled Document"
        "- [" ++ filename ++ "](docs/" ++ safe_filename filename ++
          ".md) - Created " ++ format_date (doc.created_at.getD "") ++ "\n")) ++ "\n"

/-- `ClaudeCompleteParser.create_project_info` (file content). -/
def project_info_content (project : Project) : String :=
  let name := project.name.getD "Untitled Project"
  let description := project.description.getD ""
  let metadata_section :=
    (if description ≠ "" then "**Description:** " ++ description
     else "**Description:** No description provided") ++
    "\n**Created:** " ++ format_date (project.created_at.getD "") ++
    "\n**Last Updated:** " ++ format_date (project.updated_at.getD "") ++
    "\n**Private:** " ++ (if project.is_private then "Yes" else "No") ++
    "\n**Starter Project:** " ++ (if project.is_starter_project then "Yes" else "No") ++ "\n\n"
  let creator_section :=
    match project.creator with
    | some creator =>
      "**Creator:** " ++ creator.full_name.getD "Unknown" ++
        "\n**Creator ID:** `" ++ creator.uuid.getD "Unknown" ++ "`\n\n"
    | none => ""
  let prompt_template := project.prompt_template.getD ""
  let prompt_section :=
    if prompt_template ≠ "" then "## Prompt Template\n\n> " ++ prompt_template ++ "\n\n"
    else ""
  "# " ++ name ++ "\n\n## Project Information\n\n" ++ metadata_section ++
    creator_section ++ "**Project ID:** `" ++ project.uuid.getD "Unknown" ++ "`\n\n" ++
    prompt_section ++ project_docs_section project.docs

/-- `ClaudeCompleteParser.create_project_document` (file content). -/
def project_document_content (doc : ProjectDoc) : String :=
  let filename := doc.filename.getD "Untitled Document"
  "# " ++ filename ++ "\n\n**Created:** " ++ format_date (doc.created_at.getD "") ++
    "\n**Document ID:** `" ++ doc.uuid.getD "Unknown" ++ "`\n\n---\n\n" ++
    (if doc.content.getD "" ≠ "" then doc.content.getD "" else "*No content available*")

/-! ### Metadata indices -/

def index_project_block (project : Project) : String :=
  let name := project.name.getD "Untitled Project"
  let description := project.description.getD "No description"
  "### [" ++ name ++ "](../projects/" ++ safe_filename name ++ "/project_info.md)\n" ++
    (if description ≠ "" then "*" ++ description ++ "*" else "") ++
    "\n\n- **Created:** " ++ format_date (project.created_at.getD "") ++
    "\n- **Documents:** " ++ toString project.docs.length ++
    "\n- **Private:** " ++ (if project.is_private then "Yes" else "No") ++ "\n\n"

/-- `ClaudeCompleteParser.create_projects_index` (file content). -/
def create_projects_index (s : State) : String :=
  let header := "# Projects Index\n\nTotal projects: **" ++
    toString s.projects.length ++ "**\n\n"
  if s.projects.isEmpty then header ++ "No projects found.\n"
  else
    header ++ "## All Projects\n\n" ++
      String.join ((projectsSortedDesc s.projects).map index_project_block)

def index_conversation_line (conversation : Conversation) : String :=
  let name := get_conversation_display_name conversation
  "- [" ++ name ++ "](../conversations/standalone_conversations/" ++
    safe_filename name ++ ".md)\n  *" ++ get_conversation_summary conversation ++
    "* - Updated " ++ format_date (conversation.updated_at.getD "") ++ "\n\n"

/-- `ClaudeCompleteParser.create_conversations_index` (file content). -/
def create_conversations_index (s : State) : String :=
  let header := "# Conversations Index\n\nTotal conversations: **" ++
    toString s.conversations.length ++ "**\nTotal messages: **" ++
    toString (totalMessages s.conversations) ++ "**\n\n"
  if s.conversations.isEmpty then header ++ "No conversations found.\n"
  else
    header ++ "## All Conversations\n\n" ++
      String.join ((sortByKeyDesc (fun conv => conv.updated_at.getD "")
        s.conversations).map index_conversation_line)

/-- `ClaudeCompleteParser.create_user_info` (file content). -/
def create_user_info (s : State) : String :=
  "# User Information\n\n" ++
    (if s.users.isEmpty then "No user information available."
     else String.join (s.users.map (fun user =>
       let phone_line :=
         match user.verified_phone_number with
         | some phone =>
           if phone ≠ "" then "**Verified Phone:** " ++ phone
           else "**Verified Phone:** Not provided"
         | none => "**Verified Phone:** Not provided"
       "**Name:** " ++ user.full_name.getD "Unknown" ++
         "\n**Email:** " ++ user.email_address.getD "Unknown" ++
         "\n**User ID:** `" ++ user.uuid.getD "Unknown" ++ "`\n" ++
         phone_line ++ "\n\n")))

/-! ### The export pipeline -/

structure RunOutput where
  readme : String
  projectInfoFiles : List (String × String)
  projectDocFiles : List (String × String)
  standaloneFiles : List (String × String)
  projectsIndex : String
  conversationsIndex : String
  userInfo : String
  deriving DecidableEq, Repr

/-- The single mutation of the conversation collection, performed by
`create_conversations_structure`. -/
def filterConversations (s : State) : State :=
  { s with conversations := s.conversations.filter (fun conv => has_meaningful_content conv) }

/-- `ClaudeCompleteParser.export_to_markdown`: the README is rendered from
the state as loaded; `create_conversations_structure` then filters the
collection and writes one file per surviving conversation; the metadata
indices are rendered from the filtered state.  Returns the written file
contents together with the final state. -/
def export_to_markdown (now dirName : String) (s : State) : RunOutput × State :=
  let readme := create_readme now dirName s
  let projectInfoFiles := s.projects.map (fun p =>
    ("projects/" ++ safe_filename (p.name.getD "Untitled Project") ++
      "/project_info.md", project_info_content p))
  let projectDocFiles := s.projects.flatMap (fun p =>
    p.docs.map (fun d =>
      ("projects/" ++ safe_filename (p.name.getD "Untitled Project") ++ "/docs/" ++
        safe_filename (d.filename.getD "Untitled Document") ++ ".md",
        project_document_content d)))
  let s2 := filterConversations s
  let standaloneFiles := s2.conversations.map (fun c =>
    ("conversations/standalone_conversations/" ++ conversationFileName c,
      conversation_file_content c))
  ({ readme := readme
     projectInfoFiles := projectInfoFiles
     projectDocFiles := projectDocFiles
     standaloneFiles := standaloneFiles
     projectsIndex := create_projects_index s2
     conversationsIndex := create_conversations_index s2
     userInfo := create_user_info s2 }, s2)

/-! ### Record loader -/

/-- `ClaudeCompleteParser.detect_file_type` (on the lower-cased base
filename). -/
def detect_file_type (file_path : String) : String :=
  if strContains (pyLower file_path) "conversation" then "conversations"
  else if strContains (pyLower file_path) "project" then "projects"
  else if strContains (pyLower file_path) "user" then "users"
  else "unknown"

/-- One input path as the loader sees it: its base filename, whether the
path exists, and the parsed JSON array (`none` models a JSON decode error
or any other exception while reading).  The element type is a parameter
because the loader never inspects the array's elements. -/
structure LoadFile (α : Type) where
  fname : String
  fileExists : Bool
  parsed : Option (List α)
  deriving DecidableEq, Repr

structure LoadAcc (α : Type) where
  conversations : List α
  projects : List α
  users : List α
  conversationsFound : Bool
  deriving DecidableEq, Repr

def initLoadAcc : LoadAcc α := ⟨[], [], [], false⟩

/-- The body of the loader's `for` loop for one file: a missing path, a
failed parse, or an unknown filename pattern leaves the state unchanged;
otherwise the matching collection is replaced (last file of a kind wins). -/
def loadStep (st : LoadAcc α) (f : LoadFile α) : LoadAcc α :=
  if !f.fileExists then st
  else
    match f.parsed with
    | none => st
    | some data =>
      if detect_file_type f.fname = "conversations" then
        { st with conversations := data, conversationsFound := true }
      else if detect_file_type f.fname = "projects" then { st with projects := data }
      else if detect_file_type f.fname = "users" then { st with users := data }
      else st

/-- `ClaudeCompleteParser.load_data`; `Except.error ()` models
`sys.exit(1)`. -/
def load_data (files : List (LoadFile α)) : Except Unit (LoadAcc α) :=
  if (files.foldl loadStep initLoadAcc).conversationsFound then
    .ok (files.foldl loadStep initLoadAcc)
  else .error ()

/-- A file that classifies as `kind` and loads successfully. -/
def loadsAs (kind : String) (f : LoadFile α) : Bool :=
  f.fileExists && f.parsed.isSome && (detect_file_type f.fname = kind)

/-! ### Lemmas about the string primitives -/

theorem mem_rstripP {p : Char → Bool} {l : List Char} {c : Char}
    (h : c ∈ rstripP p l) : c ∈ l := by
  induction l with
  | nil => simp [rstripP] at h
  | cons a rest ih =>
    simp only [rstripP] at h
    split at h
    · simp at h
    · rcases List.mem_cons.mp h with h' | h'
      · exact h' ▸ List.mem_cons_self a rest
      · exact List.mem_cons_of_mem a (ih h')

theorem length_rstripP (p : Char → Bool) (l : List Char) :
    (rstripP p l).length ≤ l.length := by
  induction l with
  | nil => simp [rstripP]
  | cons a rest ih =>
    simp only [rstripP]
    split
    · simp
    · simpa using ih

theorem rstripP_last {p : Char → Bool} {l : List Char} {c : Char}
    (h : (rstripP p l).getLast? = some c) : p c = false := by
  induction l with
  | nil => simp [rstripP] at h
  | cons a rest ih =>
    simp only [rstripP] at h
    split at h
    · simp at h
    · next hcond =>
      rcases hr : rstripP p rest with _ | ⟨b, rb⟩
      · rw [hr] at h
        simp only [List.getLast?_singleton, Option.some_inj] at h
        rw [hr] at hcond
        simp only [List.isEmpty_nil, Bool.true_and] at hcond
        subst h
        exact Bool.not_eq_true _ ▸ (by simpa using hcond)
      · rw [hr] at h
        rw [List.getLast?_cons_cons] at h
        exact ih (hr ▸ h)

theorem rstripP_head (p : Char → Bool) (l : List Char) :
    (rstripP p l).head? = l.head? ∨ rstripP p l = [] := by
  cases l with
  | nil => exact Or.inr rfl
  | cons a rest =>
    simp only [rstripP]
    split
    · exact Or.inr rfl
    · exact Or.inl rfl

theorem dropWhile_head_false {p : Char → Bool} {l : List Char} {c : Char}
    (h : (l.dropWhile p).head? = some c) : p c = false := by
  induction l with
  | nil => simp at h
  | cons a rest ih =>
    rw [List.dropWhile_cons] at h
    split at h
    · exact ih h
    · next hpa =>
      simp only [List.head?_cons, Option.some_inj] at h
      subst h
      exact Bool.not_eq_true _ ▸ (by simpa using hpa)

theorem stripP_head_false {p : Char → Bool} {l : List Char} {c : Char}
    (h : (stripP p l).head? = some c) : p c = false := by
  unfold stripP at h
  rcases rstripP_head p (l.dropWhile p) with h' | h'
  · rw [h'] at h
    exact dropWhile_head_false h
  · rw [h'] at h
    simp at h

theorem stripP_last_false {p : Char → Bool} {l : List Char} {c : Char}
    (h : (stripP p l).getLast? = some c) : p c = false :=
  rstripP_last h

theorem mem_stripP {p : Char → Bool} {l : List Char} {c : Char}
    (h : c ∈ stripP p l) : c ∈ l :=
  (List.dropWhile_sublist p (l := l)).mem (mem_rstripP h)

theorem mem_collapseAux {p : Char → Bool} {r : Char} {prev : Bool}
    {l : List Char} {c : Char} (h : c ∈ collapseAux p r prev l) :
    c = r ∨ c ∈ l := by
  induction l generalizing prev with
  | nil => simp [collapseAux] at h
  | cons a rest ih =>
    rw [collapseAux] at h
    split at h
    · split at h
      · rcases ih h with h' | h'
        · exact Or.inl h'
        · exact Or.inr (List.mem_cons_of_mem a h')
      · rcases List.mem_cons.mp h with h' | h'
        · exact Or.inl h'
        · rcases ih h' with h'' | h''
          · exact Or.inl h''
          · exact Or.inr (List.mem_cons_of_mem a h'')
    · rcases List.mem_cons.mp h with h' | h'
      · exact Or.inr (h' ▸ List.mem_cons_self a rest)
      · rcases ih h' with h'' | h''
        · exact Or.inl h''
        · exact Or.inr (List.mem_cons_of_mem a h'')

/-! ### Properties of `safe_filename` (claim C5) -/

theorem step1_not_reserved (a : Char) :
    reservedChar (if reservedChar a then '_' else a) = false := by
  by_cases h : reservedChar a = true
  · rw [if_pos h]; decide
  · rw [if_neg h]
    cases hv : reservedChar a
    · rfl
    · exact absurd hv h

theorem step2_not_reserved {b : Char} (hb : reservedChar b = false) :
    reservedChar (if keepChar b then b else '_') = false := by
  by_cases h : keepChar b = true
  · rw [if_pos h]; exact hb
  · rw [if_neg h]; decide

theorem mem_sanitizeBase {s : String} {c : Char} (h : c ∈ sanitizeBase s) :
    reservedChar c = false := by
  rcases mem_collapseAux (mem_stripP h) with h' | h'
  · subst h'; decide
  · simp only [List.mem_map] at h'
    obtain ⟨a, ⟨b, _, rfl⟩, rfl⟩ := h'
    exact step2_not_reserved (step1_not_reserved b)

theorem mem_sanitizePipeline {s : String} {n : Nat} {c : Char}
    (h : c ∈ sanitizePipeline s n) : reservedChar c = false := by
  unfold sanitizePipeline at h
  split at h
  · exact mem_sanitizeBase (List.take_subset _ _ (mem_rstripP h))
  · exact mem_sanitizeBase h

theorem sanitizePipeline_length (s : String) (n : Nat) :
    (sanitizePipeline s n).length ≤ n := by
  unfold sanitizePipeline
  split
  · calc (rstripP (fun c => c = '_') ((sanitizeBase s).take n)).length
        ≤ ((sanitizeBase s).take n).length := length_rstripP _ _
      _ ≤ n := by simp
  · next hlen => omega

theorem sanitizePipeline_head {s : String} {n : Nat} {c : Char}
    (h : (sanitizePipeline s n).head? = some c) : (c = '_') = False := by
  unfold sanitizePipeline at h
  split at h
  · next hlen =>
    rcases rstripP_head (fun c => c = '_') _ with h' | h'
    · rw [h'] at h
      rcases hf4 : sanitizeBase s with _ | ⟨a, tl⟩
      · rw [hf4] at hlen; simp at hlen
      · rw [hf4] at h
        have hn : n ≠ 0 := by
          intro hn0
          rw [hf4, hn0] at hlen
          rw [hn0] at h
          simp at h
        obtain ⟨k, rfl⟩ := Nat.exists_eq_succ_of_ne_zero hn
        simp only [List.take_succ_cons, List.head?_cons, Option.some_inj] at h
        have hhd : (sanitizeBase s).head? = some c := by rw [hf4]; simp [h]
        have := stripP_head_false (p := fun c => c = '_') hhd
        simpa using this
    · rw [h'] at h; simp at h
  · have := stripP_head_false (p := fun c => c = '_') h
    simpa using this

theorem sanitizePipeline_last {s : String} {n : Nat} {c : Char}
    (h : (sanitizePipeline s n).getLast? = some c) : (c = '_') = False := by
  unfold sanitizePipeline at h
  split at h
  · have := rstripP_last h
    simpa using this
  · have := stripP_last_false (p := fun c => c = '_') h
    simpa using this

/-! ### Claim C5 -/

/-- C5 (amended): for every input string `s` (with the default
`max_length` of 100), `safe_filename s` contains none of the reserved path
characters, has length at most 100, neither starts nor ends with an
underscore, and equals the literal `"untitled"` whenever the sanitised
result would otherwise be empty.  (The original claim's "exactly when" is
refuted by `claim_C5_counterexample`: an input that sanitises to the
non-empty string `"untitled"` also yields `"untitled"`.) -/
theorem claim_C5_amended (s : String) :
    (∀ c ∈ (safe_filename s).data, reservedChar c = false) ∧
    (safe_filename s).length ≤ 100 ∧
    (safe_filename s).data.head? ≠ some '_' ∧
    (safe_filename s).data.getLast? ≠ some '_' ∧
    (sanitizePipeline s 100 = [] → safe_filename s = "untitled") := by
  have hdata : (safe_filename s).data = "untitled".data ∨
      (safe_filename s).data = sanitizePipeline s 100 := by
    unfold safe_filename
    split
    · exact Or.inl rfl
    · exact Or.inr rfl
  refine ⟨?_, ?_, ?_, ?_, ?_⟩
  · intro c hc
    rcases hdata with h | h
    · rw [h] at hc
      fin_cases hc <;> decide
    · rw [h] at hc
      exact mem_sanitizePipeline hc
  · show (safe_filename s).data.length ≤ 100
    rcases hdata with h | h
    · rw [h]; decide
    · rw [h]; exact sanitizePipeline_length s 100
  · intro hEq
    rcases hdata with h | h
    · rw [h] at hEq; simp at hEq
    · rw [h] at hEq
      exact cast (sanitizePipeline_head hEq) rfl
  · intro hEq
    rcases hdata with h | h
    · rw [h] at hEq; simp at hEq
    · rw [h] at hEq
      exact cast (sanitizePipeline_last hEq) rfl
  · intro h
    unfold safe_filename
    rw [h]
    rfl

/-- C5 counterexample to "equals `'untitled'` exactly when the sanitized
result would otherwise be empty": the input `"untitled"` sanitises to the
non-empty string `"untitled"`, yet the result equals `"untitled"`. -/
theorem claim_C5_counterexample :
    safe_filename "untitled" = "untitled" ∧ sanitizePipeline "untitled" 100 ≠ [] := by
  constructor
  · rfl
  · decide

/-- C5 witness: the amended theorem applied at the concrete input
`"My: Plan?"` (whose sanitised form is `"My__Plan"`). -/
theorem claim_C5_witness :
    reservedChar 'M' = false ∧ (safe_filename "My: Plan?").length ≤ 100 ∧
      (safe_filename "My: Plan?").data.head? ≠ some '_' ∧
      safe_filename "My: Plan?" = "My__Plan" :=
  ⟨(claim_C5_amended "My: Plan?").1 'M' (by decide),
   (claim_C5_amended "My: Plan?").2.1,
   (claim_C5_amended "My: Plan?").2.2.1,
   by decide⟩

/-! ### Claim C3 -/

/-- The claim's reading of `extract_message_text`: the `text` fields of
ALL `text`-typed blocks (empty ones included), joined by newline. -/
def allTextFieldsJoined (content_array : List ContentBlock) : String :=
  String.intercalate "\n"
    ((content_array.filter (fun b => b.type == some "text")).map
      (fun b => b.text.getD ""))

theorem collectTextParts_eq_filter_map (content_array : List ContentBlock) :
    collectTextParts content_array =
      (content_array.filter
        (fun b => b.type == some "text" && b.text.getD "" != "")).map
        (fun b => b.text.getD "") := by
  induction content_array with
  | nil => rfl
  | cons item rest ih =>
    rw [collectTextParts]
    by_cases h1 : item.type = some "text"
    · by_cases h2 : item.text.getD "" ≠ ""
      · rw [if_pos h1, if_pos h2, List.filter_cons]
        simp only [h1, beq_self_eq_true, Bool.true_and, bne_iff_ne, ne_eq, h2,
          not_false_eq_true, decide_True, if_true, List.map_cons, ih]
      · rw [if_pos h1, if_neg h2, List.filter_cons]
        simp only [not_not] at h2
        simp only [h2, bne_self_eq_false, Bool.and_false, Bool.false_eq_true,
          if_false, ih]
    · rw [if_neg h1, List.filter_cons]
      have : (item.type == some "text") = false := by
        simpa using h1
      simp only [this, Bool.false_and, Bool.false_eq_true, if_false, ih]

/-- C3 (amended): `extract_message_text` returns the `text` fields of the
blocks whose `type` is `text` AND whose `text` field is non-empty, in
original order, joined by single newlines; `text`-typed blocks with an
empty or missing `text` field contribute nothing — not even a separator —
contrary to the original claim (see `claim_C3_counterexample`). -/
theorem claim_C3_amended (content_array : List ContentBlock) :
    extract_message_text content_array =
      String.intercalate "\n"
        ((content_array.filter
          (fun b => b.type == some "text" && b.text.getD "" != "")).map
          (fun b => b.text.getD "")) := by
  unfold extract_message_text
  rw [collectTextParts_eq_filter_map]

/-- C3 counterexample: on `[text "a", text "", text "b"]` the code yields
`"a\nb"`, while the claim's joining of every `text`-typed block's field
would yield `"a\n\nb"`. -/
theorem claim_C3_counterexample :
    extract_message_text
        [⟨some "text", some "a"⟩, ⟨some "text", some ""⟩, ⟨some "text", some "b"⟩] =
      "a\nb" ∧
    allTextFieldsJoined
        [⟨some "text", some "a"⟩, ⟨some "text", some ""⟩, ⟨some "text", some "b"⟩] =
      "a\n\nb" ∧
    extract_message_text
        [⟨some "text", some "a"⟩, ⟨some "text", some ""⟩, ⟨some "text", some "b"⟩] ≠
      allTextFieldsJoined
        [⟨some "text", some "a"⟩, ⟨some "text", some ""⟩, ⟨some "text", some "b"⟩] := by
  refine ⟨rfl, rfl, ?_⟩
  decide

/-! ### Claim C6 -/

/-- C6: `has_meaningful_content` is false when the conversation has zero
messages, and otherwise is true iff at least one message's formatted
content (per `format_message_content`) is non-empty after trimming. -/
theorem claim_C6 (conversation : Conversation) :
    (conversation.chat_messages = [] → has_meaningful_content conversation = false) ∧
    (has_meaningful_content conversation = true ↔
      ∃ m ∈ conversation.chat_messages, pyStrip (format_message_content m) ≠ "") := by
  constructor
  · intro h
    unfold has_meaningful_content
    rw [h]
    rfl
  · unfold has_meaningful_content
    by_cases hempty : conversation.chat_messages.isEmpty = true
    · rw [if_pos hempty]
      have h0 : conversation.chat_messages = [] := List.isEmpty_iff.mp hempty
      rw [h0]
      simp
    · rw [if_neg hempty]
      rw [List.any_eq_true]
      constructor
      · rintro ⟨m, hm, hp⟩
        simp only [Bool.and_eq_true, bne_iff_ne, ne_eq, decide_eq_true_eq] at hp
        exact ⟨m, hm, by simpa using hp.2⟩
      · rintro ⟨m, hm, hp⟩
        refine ⟨m, hm, ?_⟩
        have hne : format_message_content m ≠ "" := by
          intro h0
          apply hp
          rw [h0]
          rfl
        simp only [Bool.and_eq_true, bne_iff_ne, ne_eq, decide_eq_true_eq]
        exact ⟨by simpa using hne, by simpa using hp⟩

/-- C6 witness: the theorem applied to a zero-message conversation and to
a conversation with one human message `"Hi"`. -/
theorem claim_C6_witness :
    has_meaningful_content ⟨some "z", some "z1", none, none, none, none, []⟩ = false ∧
    has_meaningful_content
        ⟨some "m", some "m1", none, none, none, none,
          [⟨some "human", none, some "Hi", .absent⟩]⟩ = true :=
  ⟨(claim_C6 ⟨some "z", some "z1", none, none, none, none, []⟩).1 rfl,
   (claim_C6 ⟨some "m", some "m1", none, none, none, none,
      [⟨some "human", none, some "Hi", .absent⟩]⟩).2.mpr
     ⟨⟨some "human", none, some "Hi", .absent⟩, by decide, by decide⟩⟩

/-! ### Claims C7 and C8 -/

/-- The claim's description of the summary, written with `List.find?`:
the first message whose sender is `human`, but (amended) yielding the
`"<count> messages - <text>"` form only when that message's formatted
content is non-empty. -/
def summarySpec (conversation : Conversation) : String :=
  if conversation.chat_messages.isEmpty then "No messages"
  else
    match (conversation.chat_messages.find?
        (fun m => m.sender == some "human")).map format_message_content with
    | some fm =>
      if fm = "" then toString conversation.chat_messages.length ++ " messages"
      else
        toString conversation.chat_messages.length ++ " messages - " ++
          truncateWithEllipsis 80 (cleanMessageText fm)
    | none => toString conversation.chat_messages.length ++ " messages"

theorem firstHumanContent_eq_find (l : List Message) :
    firstHumanContent l =
      (l.find? (fun m => m.sender == some "human")).map format_message_content := by
  induction l with
  | nil => rfl
  | cons m rest ih =>
    rw [firstHumanContent]
    by_cases h : m.sender = some "human"
    · rw [if_pos h, List.find?_cons_of_pos _ (by simpa using h)]
      rfl
    · rw [if_neg h, List.find?_cons_of_neg _ (by simpa using h)]
      exact ih

/-- C7 (amended): `conversation_summary` returns `"No messages"` for zero
messages; otherwise it scans for the first message whose sender is
`human`, and returns `"<count> messages - <cleaned, 80-truncated text>"`
only when that message's formatted content is non-empty; when no human
message exists — or (contrary to the original claim) when the first human
message's formatted content is empty — it returns `"<count> messages"`. -/
theorem claim_C7_amended (conversation : Conversation) :
    get_conversation_summary conversation = summarySpec conversation := by
  have hkey := firstHumanContent_eq_find conversation.chat_messages
  unfold get_conversation_summary summarySpec
  simp only [hkey]
  cases hf : conversation.chat_messages.find? (fun m => m.sender == some "human") with
  | none => rfl
  | some m =>
    by_cases h : format_message_content m = ""
    · simp [h]
    · simp [h]

/-- C7 counterexample: a conversation whose single message is a human
message with empty content.  A human message is found, yet the code
returns `"1 messages"` and not the claimed `"1 messages - <text>"` form
(which here would be `"1 messages - "`). -/
theorem claim_C7_counterexample :
    (Conversation.chat_messages
        ⟨some "", some "u", none, none, none, none,
          [⟨some "human", none, some "", .absent⟩]⟩).find?
      (fun m => m.sender == some "human") =
      some ⟨some "human", none, some "", .absent⟩ ∧
    get_conversation_summary
        ⟨some "", some "u", none, none, none, none,
          [⟨some "human", none, some "", .absent⟩]⟩ = "1 messages" ∧
    get_conversation_summary
        ⟨some "", some "u", none, none, none, none,
          [⟨some "human", none, some "", .absent⟩]⟩ ≠ "1 messages - " := by
  refine ⟨rfl, rfl, ?_⟩
  decide

/-- The claim's description of the display name, written with
`List.find?`, amended in one point: when the raw name is non-empty after
trimming the TRIMMED name is returned (not the raw name). -/
def displayNameSpec (conversation : Conversation) : String :=
  if pyStrip (conversation.name.getD "") ≠ "" then pyStrip (conversation.name.getD "")
  else
    match conversation.chat_messages.find?
        (fun m => m.sender == some "human" && format_message_content m != "") with
    | some m => truncateWithEllipsis 50 (cleanMessageText (format_message_content m))
    | none =>
      "Untitled Conversation " ++
        (if (conversation.uuid.getD "unknown").length ≥ 8 then
          String.mk ((conversation.uuid.getD "unknown").data.drop
            ((conversation.uuid.getD "unknown").length - 8))
        else conversation.uuid.getD "unknown")

theorem firstHumanName_eq_find (l : List Message) :
    firstHumanName l =
      (l.find? (fun m => m.sender == some "human" && format_message_content m != "")).map
        (fun m => truncateWithEllipsis 50 (cleanMessageText (format_message_content m))) := by
  induction l with
  | nil => rfl
  | cons m rest ih =>
    rw [firstHumanName]
    by_cases h : m.sender = some "human"
    · by_cases h2 : format_message_content m ≠ ""
      · rw [if_pos h, if_pos h2,
          List.find?_cons_of_pos _ (by simp [h, h2])]
        rfl
      · rw [if_pos h, if_neg h2,
          List.find?_cons_of_neg _ (by simp [h]; simpa using h2)]
        exact ih
    · rw [if_neg h, List.find?_cons_of_neg _ (by simp [h])]
      exact ih

/-- C8 (amended): `display_name` returns the TRIMMED name when the raw
name is non-empty after trimming (the original claim said "the raw name";
see `claim_C8_counterexample`); otherwise the cleaned, 50-truncated
formatted content of the first human message with non-empty content;
otherwise `"Untitled Conversation "` followed by the last 8 characters of
the id (or the full id when shorter than 8 characters, the id defaulting
to `"unknown"` when absent). -/
theorem claim_C8_amended (conversation : Conversation) :
    get_conversation_display_name conversation = displayNameSpec conversation := by
  have hkey := firstHumanName_eq_find conversation.chat_messages
  unfold get_conversation_display_name displayNameSpec
  simp only [hkey]
  by_cases h : pyStrip (conversation.name.getD "") ≠ ""
  · rw [if_pos h, if_pos h]
  · rw [if_neg h, if_neg h]
    cases hf : conversation.chat_messages.find?
        (fun m => m.sender == some "human" && format_message_content m != "") with
    | none => rfl
    | some m => rfl

/-- C8 counterexample: for the raw name `" Hi "` (non-empty after
trimming) the function returns the trimmed `"Hi"`, not the raw name. -/
theorem claim_C8_counterexample :
    Conversation.name ⟨some " Hi ", some "ab", none, none, none, none, []⟩ =
      some " Hi " ∧
    pyStrip " Hi " ≠ "" ∧
    get_conversation_display_name
        ⟨some " Hi ", some "ab", none, none, none, none, []⟩ = "Hi" ∧
    get_conversation_display_name
        ⟨some " Hi ", some "ab", none, none, none, none, []⟩ ≠ " Hi " := by
  refine ⟨rfl, ?_, rfl, ?_⟩ <;> decide

/-! ### Claim C10 -/

/-- C10 (amended): for every conversation whose raw `name` field is the
empty string, the README recent-conversations entry has empty link text
and link target `untitled.md`, while the written conversation file is
named from the synthesised display name; the README link target coincides
with the written filename exactly when the display name itself sanitises
to `"untitled"` (so, contrary to the original claim's final clause, the
link CAN point at the written file — see `claim_C10_counterexample`). -/
theorem claim_C10_amended (conversation : Conversation)
    (h : conversation.name = some "") :
    readme_link_text conversation = "" ∧
    readme_link_filename conversation = "untitled.md" ∧
    conversationFileName conversation =
      safe_filename (get_conversation_display_name conversation) ++ ".md" ∧
    (readme_link_filename conversation = conversationFileName conversation ↔
      safe_filename (get_conversation_display_name conversation) = "untitled") := by
  have ht : readme_link_text conversation = "" := by
    unfold readme_link_text
    rw [h]
    rfl
  have hf : readme_link_filename conversation = "untitled.md" := by
    unfold readme_link_filename
    rw [ht]
    rfl
  refine ⟨ht, hf, rfl, ?_⟩
  rw [hf]
  unfold conversationFileName
  constructor
  · intro heq
    have hd := congrArg String.data heq.symm
    rw [String.data_append] at hd
    have : (safe_filename (get_conversation_display_name conversation)).data =
        "untitled".data := by
      have hu : ("untitled.md" : String).data = "untitled".data ++ ".md".data := by decide
      rw [hu] at hd
      exact List.append_cancel_right hd
    exact String.ext this
  · intro heq
    rw [heq]
    decide

/-- C10 counterexample: the conversation with empty name, uuid
`12345678` and single human message `"???"` survives filtering, its
README link targets `untitled.md`, and the written file is ALSO
`untitled.md` (the display name `"???"` sanitises to `"untitled"`), so
the claim's "the README link does not point at the written file" fails. -/
theorem claim_C10_counterexample :
    Conversation.name
        ⟨some "", some "12345678", none, none, none, none,
          [⟨some "human", none, some "???", .absent⟩]⟩ = some "" ∧
    has_meaningful_content
        ⟨some "", some "12345678", none, none, none, none,
          [⟨some "human", none, some "???", .absent⟩]⟩ = true ∧
    readme_link_filename
        ⟨some "", some "12345678", none, none, none, none,
          [⟨some "human", none, some "???", .absent⟩]⟩ = "untitled.md" ∧
    conversationFileName
        ⟨some "", some "12345678", none, none, none, none,
          [⟨some "human", none, some "???", .absent⟩]⟩ = "untitled.md" := by
  refine ⟨rfl, rfl, rfl, ?_⟩
  rfl

/-- C10 witness: the amended theorem applied to a conversation with empty
name and first human message `"Hello world"`; there the README link
target and the written filename do differ. -/
theorem claim_C10_witness :
    readme_link_filename
        ⟨some "", some "abc12345", none, none, none, none,
          [⟨some "human", none, some "Hello world", .absent⟩]⟩ = "untitled.md" ∧
    conversationFileName
        ⟨some "", some "abc12345", none, none, none, none,
          [⟨some "human", none, some "Hello world", .absent⟩]⟩ = "Hello_world.md" ∧
    readme_link_filename
        ⟨some "", some "abc12345", none, none, none, none,
          [⟨some "human", none, some "Hello world", .absent⟩]⟩ ≠
      conversationFileName
        ⟨some "", some "abc12345", none, none, none, none,
          [⟨some "human", none, some "Hello world", .absent⟩]⟩ :=
  ⟨(claim_C10_amended _ rfl).2.1, by rfl, by decide⟩

/-! ### Claim C4 -/

theorem loadStep_conversationsFound (st : LoadAcc α) (f : LoadFile α) :
    (loadStep st f).conversationsFound =
      (st.conversationsFound || loadsAs "conversations" f) := by
  unfold loadStep loadsAs
  cases hfe : f.fileExists
  · simp
  · cases hp : f.parsed
    · simp
    · by_cases hd : detect_file_type f.fname = "conversations"
      · simp [hd]
      · by_cases hd2 : detect_file_type f.fname = "projects"
        · simp [hd, hd2]
        · by_cases hd3 : detect_file_type f.fname = "users"
          · simp [hd, hd2, hd3]
          · simp [hd, hd2, hd3]

theorem foldl_conversationsFound (files : List (LoadFile α)) (st : LoadAcc α) :
    (files.foldl loadStep st).conversationsFound =
      (st.conversationsFound || files.any (loadsAs "conversations")) := by
  induction files generalizing st with
  | nil => simp
  | cons f rest ih =>
    rw [List.foldl_cons, ih, List.any_cons, loadStep_conversationsFound,
      Bool.or_assoc]

theorem loadStep_projects (st : LoadAcc α) (f : LoadFile α)
    (h : loadsAs "projects" f = false) : (loadStep st f).projects = st.projects := by
  unfold loadStep
  unfold loadsAs at h
  cases hfe : f.fileExists
  · simp
  · cases hp : f.parsed
    · simp
    · rw [hfe, hp] at h
      simp only [Option.isSome_some, Bool.and_true, Bool.true_and] at h
      by_cases hd : detect_file_type f.fname = "conversations"
      · simp [hd]
      · by_cases hd2 : detect_file_type f.fname = "projects"
        · rw [hd2] at h; simp at h
        · by_cases hd3 : detect_file_type f.fname = "users"
          · simp [hd, hd2, hd3]
          · simp [hd, hd2, hd3]

theorem loadStep_users (st : LoadAcc α) (f : LoadFile α)
    (h : loadsAs "users" f = false) : (loadStep st f).users = st.users := by
  unfold loadStep
  unfold loadsAs at h
  cases hfe : f.fileExists
  · simp
  · cases hp : f.parsed
    · simp
    · rw [hfe, hp] at h
      simp only [Option.isSome_some, Bool.and_true, Bool.true_and] at h
      by_cases hd : detect_file_type f.fname = "conversations"
      · simp [hd]
      · by_cases hd2 : detect_file_type f.fname = "projects"
        · simp [hd, hd2]
        · by_cases hd3 : detect_file_type f.fname = "users"
          · rw [hd3] at h; simp at h
          · simp [hd, hd2, hd3]

theorem foldl_projects (files : List (LoadFile α)) (st : LoadAcc α)
    (h : ∀ f ∈ files, loadsAs "projects" f = false) :
    (files.foldl loadStep st).projects = st.projects := by
  induction files generalizing st with
  | nil => rfl
  | cons f rest ih =>
    rw [List.foldl_cons, ih _ (fun g hg => h g (List.mem_cons_of_mem f hg)),
      loadStep_projects st f (h f (List.mem_cons_self f rest))]

theorem foldl_users (files : List (LoadFile α)) (st : LoadAcc α)
    (h : ∀ f ∈ files, loadsAs "users" f = false) :
    (files.foldl loadStep st).users = st.users := by
  induction files generalizing st with
  | nil => rfl
  | cons f rest ih =>
    rw [List.foldl_cons, ih _ (fun g hg => h g (List.mem_cons_of_mem f hg)),
      loadStep_users st f (h f (List.mem_cons_self f rest))]

/-- C4: the load step exits non-zero iff no file that classifies as
conversations is successfully parsed; a missing path, a parse failure, or
an unrecognised filename pattern only skips that file; and the projects
and users collections default to empty when no such file loads. -/
theorem claim_C4 (α : Type) (files : List (LoadFile α)) :
    (load_data files = Except.error () ↔
      ∀ f ∈ files, loadsAs "conversations" f = false) ∧
    ((∃ f ∈ files, loadsAs "conversations" f = true) →
      ∃ r, load_data files = Except.ok r) ∧
    (∀ (st : LoadAcc α) (f : LoadFile α),
      f.fileExists = false ∨ f.parsed = none ∨ detect_file_type f.fname = "unknown" →
        loadStep st f = st) ∧
    (∀ r, load_data files = Except.ok r →
      (∀ f ∈ files, loadsAs "projects" f = false) → r.projects = []) ∧
    (∀ r, load_data files = Except.ok r →
      (∀ f ∈ files, loadsAs "users" f = false) → r.users = []) := by
  have hfound : (files.foldl loadStep (initLoadAcc (α := α))).conversationsFound =
      files.any (loadsAs "conversations") := by
    rw [foldl_conversationsFound]
    rfl
  refine ⟨?_, ?_, ?_, ?_, ?_⟩
  · unfold load_data
    rw [hfound]
    by_cases h : files.any (loadsAs "conversations") = true
    · rw [if_pos h]
      constructor
      · intro hc; cases hc
      · intro hall
        obtain ⟨f, hf, hl⟩ := List.any_eq_true.mp h
        exact absurd hl (by simp [hall f hf])
    · have h' : files.any (loadsAs "conversations") = false := by
        cases hv : files.any (loadsAs "conversations")
        · rfl
        · exact absurd hv h
      rw [h']
      simp only [Bool.false_eq_true, if_false, true_iff]
      intro f hf
      cases hv : loadsAs "conversations" f
      · rfl
      · exact absurd (List.any_eq_true.mpr ⟨f, hf, hv⟩) h
  · intro ⟨f, hf, hl⟩
    unfold load_data
    rw [hfound, List.any_eq_true.mpr ⟨f, hf, hl⟩]
    exact ⟨_, rfl⟩
  · intro st f h
    unfold loadStep
    rcases h with h | h | h
    · rw [h]; rfl
    · rw [h]
      cases hfe : f.fileExists <;> rfl
    · have hd1 : detect_file_type f.fname ≠ "conversations" := by rw [h]; decide
      have hd2 : detect_file_type f.fname ≠ "projects" := by rw [h]; decide
      have hd3 : detect_file_type f.fname ≠ "users" := by rw [h]; decide
      cases hfe : f.fileExists
      · rfl
      · cases hp : f.parsed
        · rfl
        · simp [hd1, hd2, hd3]
  · intro r hr hall
    unfold load_data at hr
    split at hr
    · cases hr
      rw [foldl_projects files initLoadAcc hall]
      rfl
    · cases hr
  · intro r hr hall
    unfold load_data at hr
    split at hr
    · cases hr
      rw [foldl_users files initLoadAcc hall]
      rfl
    · cases hr

/-- C4 witness: a run whose only file is `data.json` (unknown pattern)
exits non-zero; a run with a parsed `conversations.json` succeeds. -/
theorem claim_C4_witness :
    load_data (α := Nat) [⟨"data.json", true, some []⟩] = Except.error () ∧
    (∃ r, load_data (α := Nat) [⟨"conversations.json", true, some [1]⟩] =
      Except.ok r) :=
  ⟨(claim_C4 Nat [⟨"data.json", true, some []⟩]).1.mpr (by decide),
   (claim_C4 Nat [⟨"conversations.json", true, some [1]⟩]).2.1
     ⟨⟨"conversations.json", true, some [1]⟩, by decide, by decide⟩⟩

/-! ### Claim C2 -/

def monthNames : List String :=
  ["January", "February", "March", "April", "May", "June", "July", "August",
   "September", "October", "November", "December"]

/-- The shape of the string actually produced by the `strftime` call: the
claimed `"Month DD, YYYY at HH:MM AM/PM"` template FOLLOWED by a space and
the `%Z` timezone name (empty for naive timestamps, leaving a trailing
space). -/
def verboseDateForm (out : String) (dt : PyDateTime) : Prop :=
  out = monthName dt.month ++ " " ++ pad2 dt.day ++ ", " ++ toString dt.year ++
      " at " ++ pad2 (hour12 dt.hour) ++ ":" ++ pad2 dt.minute ++ " " ++
      meridiem dt.hour ++ " " ++ tznameStr dt.offset ∧
    monthName dt.month ∈ monthNames ∧
    (pad2 dt.day).length = 2 ∧
    (pad2 (hour12 dt.hour)).length = 2 ∧
    (pad2 dt.minute).length = 2 ∧
    (meridiem dt.hour = "AM" ∨ meridiem dt.hour = "PM")

theorem pad2_length {n : Nat} (h : n ≤ 99) : (pad2 n).length = 2 := by
  interval_cases n <;> decide

theorem monthName_mem {m : Nat} (h1 : 1 ≤ m) (h2 : m ≤ 12) :
    monthName m ∈ monthNames := by
  interval_cases m <;> decide

theorem hour12_bounds (h : Nat) : 1 ≤ hour12 h ∧ hour12 h ≤ 12 := by
  unfold hour12
  by_cases h0 : h % 12 = 0
  · rw [if_pos h0]; omega
  · rw [if_neg h0]
    have := Nat.mod_lt h (show 0 < 12 by decide)
    omega

theorem meridiem_cases (h : Nat) : meridiem h = "AM" ∨ meridiem h = "PM" := by
  unfold meridiem
  split
  · exact Or.inl rfl
  · exact Or.inr rfl

theorem daysInMonth_le (y m : Nat) : daysInMonth y m ≤ 31 := by
  unfold daysInMonth
  split
  · split <;> omega
  · split <;> omega

theorem mkValidDateTime_inversion {y m d hh mi s f : Nat} {off : Option Int}
    {dt : PyDateTime} (h : mkValidDateTime y m d hh mi s f off = some dt) :
    dt = ⟨y, m, d, hh, mi, s, f, off⟩ ∧ 1 ≤ m ∧ m ≤ 12 ∧ 1 ≤ d ∧ d ≤ 31 ∧
      hh ≤ 23 ∧ mi ≤ 59 := by
  unfold mkValidDateTime at h
  split at h
  · next hcond =>
    obtain ⟨h1, h2, h3, h4, h5, h6, h7, h8, h9⟩ := hcond
    injection h with h
    exact ⟨h.symm, h3, h4, h5, le_trans h6 (daysInMonth_le y m), h7, h8⟩
  · cases h

theorem pyFromIsoformat_inversion {str : String} {dt : PyDateTime}
    (h : pyFromIsoformat str = some dt) :
    1 ≤ dt.month ∧ dt.month ≤ 12 ∧ 1 ≤ dt.day ∧ dt.day ≤ 31 ∧
      dt.hour ≤ 23 ∧ dt.minute ≤ 59 := by
  unfold pyFromIsoformat at h
  split at h
  · cases h
  · split at h
    · obtain ⟨heq, h1, h2, h3, h4, h5, h6⟩ := mkValidDateTime_inversion h
      subst heq
      exact ⟨h1, h2, h3, h4, h5, h6⟩
    · split at h
      · cases h
      · split at h
        · cases h
        · split at h
          · obtain ⟨heq, h1, h2, h3, h4, h5, h6⟩ := mkValidDateTime_inversion h
            subst heq
            exact ⟨h1, h2, h3, h4, h5, h6⟩
          · cases h

theorem verboseDateForm_of_bounds {dt : PyDateTime} (h1 : 1 ≤ dt.month)
    (h2 : dt.month ≤ 12) (hd : dt.day ≤ 31) (_hh : dt.hour ≤ 23)
    (hm : dt.minute ≤ 59) : verboseDateForm (pyStrftimeVerbose dt) dt :=
  ⟨rfl, monthName_mem h1 h2, pad2_length (by omega),
   pad2_length (le_trans (hour12_bounds dt.hour).2 (by omega)),
   pad2_length (by omega), meridiem_cases dt.hour⟩

/-- C2 (amended): `format_date` returns `"Unknown date"` on the empty
string; on any input accepted by `fromisoformat` (after the `Z → +00:00`
rewrite) it returns the `strftime` rendering, which is of the form
`"Month DD, YYYY at HH:MM AM/PM <tzname>"` — with a trailing timezone
field, `"UTC…"` for aware timestamps and empty (leaving a trailing space)
for naive ones, contrary to the claimed `"… AM/PM"` shape; and on any
input that fails to parse it returns the input AFTER the `Z` rewrite —
which differs from the original string for unparseable inputs ending in
`'Z'`, contrary to the claimed "original string unchanged" — and never
raises.  Both deviations are exhibited by `claim_C2_counterexample`. -/
theorem claim_C2_amended :
    format_date "" = "Unknown date" ∧
    (∀ (s : String) (dt : PyDateTime), s ≠ "" →
      pyFromIsoformat (rewriteZ s) = some dt →
        format_date s = pyStrftimeVerbose dt ∧
          verboseDateForm (pyStrftimeVerbose dt) dt) ∧
    (∀ s : String, s ≠ "" → pyFromIsoformat (rewriteZ s) = none →
      format_date s = rewriteZ s) := by
  refine ⟨rfl, ?_, ?_⟩
  · intro s dt hs hp
    constructor
    · unfold format_date
      rw [if_neg hs, hp]
    · obtain ⟨h1, h2, h3, h4, h5, h6⟩ := pyFromIsoformat_inversion hp
      exact verboseDateForm_of_bounds h1 h2 h4 h5 h6
  · intro s hs hp
    unfold format_date
    rw [if_neg hs, hp]

/-- C2 witness: the amended theorem applied at
`"2024-01-02T03:04:05+00:00"` (parse succeeds) and at `"zzZ"` (parse
fails after the rewrite). -/
theorem claim_C2_witness :
    format_date "2024-01-02T03:04:05+00:00" =
      pyStrftimeVerbose ⟨2024, 1, 2, 3, 4, 5, 0, some 0⟩ ∧
    format_date "zzZ" = rewriteZ "zzZ" :=
  ⟨(claim_C2_amended.2.1 "2024-01-02T03:04:05+00:00" ⟨2024, 1, 2, 3, 4, 5, 0, some 0⟩
      (by decide) (by decide)).1,
   claim_C2_amended.2.2 "zzZ" (by decide) (by decide)⟩

/-- C2 counterexample: `format_date` output for a Z-suffixed timestamp
ends in `" UTC"`, not in the claimed `"AM"`/`"PM"`; and an unparseable
string ending in `'Z'` is returned REWRITTEN (`"xZ"` becomes
`"x+00:00"`), not unchanged. -/
theorem claim_C2_counterexample :
    format_date "2024-01-02T03:04:05Z" = "January 02, 2024 at 03:04 AM UTC" ∧
    pyEndsWith "January 02, 2024 at 03:04 AM UTC" "AM" = false ∧
    pyEndsWith "January 02, 2024 at 03:04 AM UTC" "PM" = false ∧
    format_date "xZ" = "x+00:00" ∧
    "x+00:00" ≠ "xZ" := by
  refine ⟨by decide, by decide, by decide, by decide, by decide⟩

/-! ### Claim C1 -/

/-- A zero-message conversation (named `z`, most recently updated). -/
def convZ : Conversation := ⟨some "z", some "z1", none, none, some "2", none, []⟩

/-- A meaningful conversation (named `m`). -/
def convM : Conversation :=
  ⟨some "m", some "m1", none, none, some "1", none,
    [⟨some "human", none, some "Hi", .absent⟩]⟩

/-- A loaded state with one meaningful and one zero-message conversation. -/
def demoState : State := ⟨[convM, convZ], [], []⟩

/-- C1 (amended): the conversation collection is filtered exactly once,
but only inside `create_conversations_structure`, which runs AFTER the
README is rendered: the standalone conversation files and the
conversations index reflect the filtered set — and a zero-message
conversation is never in that set — while the README is rendered from the
original, unfiltered load (see `claim_C1_counterexample` for the claimed
README properties failing). -/
theorem claim_C1_amended (now dirName : String) (s : State) :
    (export_to_markdown now dirName s).1.readme = create_readme now dirName s ∧
    (export_to_markdown now dirName s).2 = filterConversations s ∧
    (export_to_markdown now dirName s).1.standaloneFiles =
      (filterConversations s).conversations.map (fun c =>
        ("conversations/standalone_conversations/" ++ conversationFileName c,
          conversation_file_content c)) ∧
    (export_to_markdown now dirName s).1.conversationsIndex =
      create_conversations_index (filterConversations s) ∧
    (∀ conv ∈ s.conversations, conv.chat_messages = [] →
      conv ∉ (filterConversations s).conversations) := by
  refine ⟨rfl, rfl, rfl, rfl, ?_⟩
  intro conv _ hempty hcontra
  have hmean := (List.mem_filter.mp hcontra).2
  unfold has_meaningful_content at hmean
  rw [hempty] at hmean
  cases hmean

set_option maxRecDepth 4000 in
/-- C1 counterexample: on a load with one meaningful and one zero-message
conversation, the run's README reports `Total Conversations: 2` (the
unfiltered count, where the post-filter count is 1) and lists the
zero-message conversation `z` in its Recent Conversations section, while
the conversations index and the written files reflect the filtered set —
so the README does NOT reflect the filtered collection as claimed. -/
theorem claim_C1_counterexample :
    convZ.chat_messages = [] ∧
    demoState.conversations.length = 2 ∧
    (filterConversations demoState).conversations.length = 1 ∧
    (export_to_markdown "T" "d" demoState).1.readme =
      header_content "T" ++ user_info_section demoState ++
        overview_section demoState ++ date_range_section demoState ++
        structure_section "d" ++ projects_section demoState ++
        recent_conversations_section demoState ++ navigation_section ∧
    overview_section demoState =
      "## Overview\n\n- **Total Projects:** 0\n- **Total Conversations:** 2\n- **Total Messages:** 1\n\n" ∧
    overview_section demoState ≠ overview_section (filterConversations demoState) ∧
    readmeRecentList demoState.conversations = [convZ, convM] ∧
    recent_conversations_section demoState =
      "## Recent Conversations\n- [z](conversations/standalone_conversations/z.md)\n  *No messages* - 2\n- [m](conversations/standalone_conversations/m.md)\n  *1 messages - Hi* - 1\n\n" ∧
    (export_to_markdown "T" "d" demoState).1.conversationsIndex =
      "# Conversations Index\n\nTotal conversations: **1**\nTotal messages: **1**\n\n## All Conversations\n\n- [m](../conversations/standalone_conversations/m.md)\n  *1 messages - Hi* - Updated 1\n\n" ∧
    (export_to_markdown "T" "d" demoState).1.standaloneFiles.map
        (fun p => p.1) = ["conversations/standalone_conversations/m.md"] := by
  refine ⟨rfl, rfl, rfl, rfl, by decide, by decide, by decide, by decide,
    by decide, rfl⟩

/-- C1 witness: the amended theorem applied at the demo state: the
zero-message conversation `z` is not in the filtered collection. -/
theorem claim_C1_witness :
    convZ ∉ (filterConversations demoState).conversations :=
  (claim_C1_amended "T" "d" demoState).2.2.2.2 convZ (by decide) rfl

/-! ### Claim C9 -/

/-- C9: every renderer is a pure function of the loaded collections (and
the output directory name): across two runs with different `now`
timestamps on the same state, every output file — project info files,
project documents, standalone conversation files, the three metadata
files — is byte-identical, the final states agree, and each run's README
factors as the title-plus-`generated on` header (the sole consumer of the
timestamp) followed by a body that depends only on the directory name and
the state. -/
theorem claim_C9 (t1 t2 dirName : String) (s : State) :
    (export_to_markdown t1 dirName s).1.projectInfoFiles =
      (export_to_markdown t2 dirName s).1.projectInfoFiles ∧
    (export_to_markdown t1 dirName s).1.projectDocFiles =
      (export_to_markdown t2 dirName s).1.projectDocFiles ∧
    (export_to_markdown t1 dirName s).1.standaloneFiles =
      (export_to_markdown t2 dirName s).1.standaloneFiles ∧
    (export_to_markdown t1 dirName s).1.projectsIndex =
      (export_to_markdown t2 dirName s).1.projectsIndex ∧
    (export_to_markdown t1 dirName s).1.conversationsIndex =
      (export_to_markdown t2 dirName s).1.conversationsIndex ∧
    (export_to_markdown t1 dirName s).1.userInfo =
      (export_to_markdown t2 dirName s).1.userInfo ∧
    (export_to_markdown t1 dirName s).2 = (export_to_markdown t2 dirName s).2 ∧
    (export_to_markdown t1 dirName s).1.readme =
      header_content t1 ++ readmeBody dirName s ∧
    (export_to_markdown t2 dirName s).1.readme =
      header_content t2 ++ readmeBody dirName s ∧
    header_content t1 =
      "# Claude Export - Complete Archive\n\nExport generated on: " ++ t1 ++
        "\n\n" :=
  ⟨rfl, rfl, rfl, rfl, rfl, rfl, rfl, rfl, rfl, rfl⟩

end ClaudeParser
